import Mathlib

/-!
Verification of the AbuseIPDB command-line client's HTTP API component
(`src/include/api/AbuseIpDbApi.hpp`, `src/src/api/AbuseIpDbApi.cpp`)
against its natural-language specification.

The C++ code is shallowly embedded: pure helpers become Lean functions;
the libcurl transport, the filesystem and the nlohmann JSON parser are
external collaborators and are passed in as explicit oracles; each
endpoint method is a function that, besides its return value (or the
exception it throws, as an `Outcome.exn`), records the observable curl
lifecycle events of the call in a trace.
-/

namespace AbuseIpDbClient

/-- `AbuseIpDbApi::MAX_IPS_STANDARD` (AbuseIpDbApi.cpp line 53). -/
def MAX_IPS_STANDARD : Nat := 10000

/-- `AbuseIpDbApi::MAX_IPS_BASIC_SUB` (AbuseIpDbApi.cpp line 54). -/
def MAX_IPS_BASIC_SUB : Nat := 100000

/-- `AbuseIpDbApi::MAX_IPS_PREMIUM_SUB` (AbuseIpDbApi.cpp line 55). -/
def MAX_IPS_PREMIUM_SUB : Nat := 500000

/-- Embedding of `getReportCategories` (AbuseIpDbApi.cpp lines 482-514).
The source starts from an empty vector and, for each of the 23 literal masks in
order, pushes the wire code when `val & mask` is non-zero; sequential
conditional push_back becomes an append chain of conditional singletons.
`values` is the `uint64_t` value of the `ReportCategories` enum. -/
def getReportCategories (values : Nat) : List Nat :=
  let val := values
  (if val &&& 1 ≠ 0 then [1] else []) ++
  (if val &&& 2 ≠ 0 then [2] else []) ++
  (if val &&& 4 ≠ 0 then [3] else []) ++
  (if val &&& 8 ≠ 0 then [4] else []) ++
  (if val &&& 16 ≠ 0 then [5] else []) ++
  (if val &&& 32 ≠ 0 then [6] else []) ++
  (if val &&& 64 ≠ 0 then [7] else []) ++
  (if val &&& 128 ≠ 0 then [8] else []) ++
  (if val &&& 256 ≠ 0 then [9] else []) ++
  (if val &&& 512 ≠ 0 then [10] else []) ++
  (if val &&& 1024 ≠ 0 then [11] else []) ++
  (if val &&& 2048 ≠ 0 then [12] else []) ++
  (if val &&& 4096 ≠ 0 then [13] else []) ++
  (if val &&& 8192 ≠ 0 then [14] else []) ++
  (if val &&& 16384 ≠ 0 then [15] else []) ++
  (if val &&& 32768 ≠ 0 then [16] else []) ++
  (if val &&& 65536 ≠ 0 then [17] else []) ++
  (if val &&& 131072 ≠ 0 then [18] else []) ++
  (if val &&& 262144 ≠ 0 then [19] else []) ++
  (if val &&& 524288 ≠ 0 then [20] else []) ++
  (if val &&& 1048576 ≠ 0 then [21] else []) ++
  (if val &&& 2097152 ≠ 0 then [22] else []) ++
  (if val &&& 4194304 ≠ 0 then [23] else [])

/-- Embedding of `operator|(ReportCategories, ReportCategories)`
(AbuseIpDbApi.hpp lines 170-176): bitwise OR of the underlying `uint64_t`
values. -/
def combineCategories (a b : Nat) : Nat := a ||| b

/-- Proof-side normal form of the decode walk: decode the bits of `v` listed in
`l`, bit `i` contributing wire code `i + 1` when set. `getReportCategories v`
is proved equal to `decodeBits v (List.range 23)`. -/
def decodeBits (v : Nat) : List Nat → List Nat
  | [] => []
  | i :: rest => (if v &&& 2 ^ i ≠ 0 then [i + 1] else []) ++ decodeBits v rest

/-- The C-locale `std::isspace` on ASCII: space (32) and the control characters
9 to 13 (tab, newline, vertical tab, form feed, carriage return). Used by the
write callback via `std::all_of` (AbuseIpDbApi.cpp line 87). -/
def isspaceC (c : Char) : Bool :=
  c.toNat == 32 || (9 ≤ c.toNat && c.toNat ≤ 13)

/-- Embedding of `handleCurlWrite` (AbuseIpDbApi.cpp lines 82-95): compute
`size = dataLength * memBufSize`, view the first `size` characters of the
incoming buffer as the chunk, drop the chunk when it is empty or consists only
of whitespace, otherwise append it to the output buffer; always report `size`
bytes as written. Returns the updated output buffer and the returned size. -/
def handleCurlWrite (data : String) (dataLength memBufSize : Nat)
    (output : String) : String × Nat :=
  let size := dataLength * memBufSize
  let str := String.mk (data.data.take size)
  if str.data.isEmpty || str.data.all isspaceC then
    (output, size)
  else
    (output ++ str, size)

/-- One transport execution (`curl_easy_perform`) feeds the received chunks to
`handleCurlWrite` one by one, with `dataLength = 1` and `memBufSize` the chunk
length, accumulating into `m_curlResponse` (cleared by `initialiseCurl` at the
start of the call). -/
def accumulateBody (chunks : List String) : String :=
  chunks.foldl (fun out chunk => (handleCurlWrite chunk 1 chunk.length out).1) ""

/-- `curl_easy_escape` keeps ASCII alphanumerics and `-`, `.`, `_`, `~`
unchanged. -/
def curlIsUnreserved (c : Char) : Bool :=
  (65 ≤ c.toNat && c.toNat ≤ 90) || (97 ≤ c.toNat && c.toNat ≤ 122) ||
  (48 ≤ c.toNat && c.toNat ≤ 57) ||
  c == '-' || c == '.' || c == '_' || c == '~'

/-- Upper-case hexadecimal digit for a value below 16. -/
def hexUpper (n : Nat) : Char :=
  if n < 10 then Char.ofNat (48 + n) else Char.ofNat (55 + n)

/-- Embedding of `getEscapedString` (AbuseIpDbApi.cpp lines 65-70), which
delegates to `curl_easy_escape`: percent-encode every byte that is not an
unreserved URL character, with upper-case hex digits. -/
def getEscapedString (unescapedString : String) : String :=
  String.mk (unescapedString.data.foldl
    (fun acc c =>
      if curlIsUnreserved c then acc ++ [c]
      else acc ++ ['%', hexUpper (c.toNat / 16 % 16), hexUpper (c.toNat % 16)])
    [])

/-- Embedding of `setHeaders` (AbuseIpDbApi.cpp lines 106-122): the header list
always starts with the `Key:` auth header and `accept: application/json`, then
appends each extra header (the `otherHeaders` map) as `name: value`. -/
def setHeadersList (apiKey : String) (otherHeaders : List (String × String)) :
    List String :=
  ["Key: " ++ apiKey, "accept: application/json"] ++
    otherHeaders.map (fun x => x.1 ++ ": " ++ x.2)

/-- A decoded nlohmann document, abstracted: `nullJson` is the default-built
`json()` (the empty/error sentinel); `doc` is some successfully parsed
document, identified by its serialised text. -/
inductive Json where
  | nullJson
  | doc (text : String)
  deriving DecidableEq, Repr

/-- Result of one endpoint call as seen by the caller: the returned value, or
the exception (type and message) that propagates out. -/
inductive Outcome (α : Type) where
  | ok (value : α)
  | exn (what msg : String)
  deriving DecidableEq, Repr

/-- Observable curl lifecycle events of one endpoint call, in program order:
`clearAccumulators` is the unconditional clearing of `m_curlResponse` and
`m_curlResponseHeaders` inside `initialiseCurl`; `perform` is
`curl_easy_perform`; `freeHeaders` is `curl_slist_free_all`; `resetHandle` is
`curl_easy_reset`; `parseAttempt` is entering `json::parse` on the captured
body. -/
inductive Ev where
  | clearAccumulators
  | perform
  | freeHeaders
  | resetHandle
  | parseAttempt
  deriving DecidableEq, Repr

/-- The request configured on the curl handle at the moment of
`curl_easy_perform`: URL, optional `CURLOPT_CUSTOMREQUEST`, optional
`CURLOPT_POSTFIELDS`, whether a `CURLOPT_MIMEPOST` form is attached, and the
`curl_slist` headers. -/
structure Request where
  url : String
  customRequest : Option String
  postFields : Option String
  mimePost : Bool
  headers : List String
  deriving DecidableEq, Repr

/-- The outcome of one endpoint call: the event trace, the request that was
performed (`none` when the call threw before reaching the transport), and the
result returned to (or exception raised at) the caller. -/
structure Call (α : Type) where
  trace : List Ev
  request : Option Request
  result : Outcome α
  deriving DecidableEq, Repr

/-- Outcome of the `curl_easy_perform` collaborator: the `CURLcode` return
value (`0` is `CURLE_OK`) and the data chunks it streams to the write
callback. -/
structure TransportResult where
  retCode : Nat
  chunks : List String
  deriving DecidableEq, Repr

/-- Filesystem collaborator used by `bulkReport`: `std::filesystem::exists`,
`std::filesystem::is_regular_file` and whether `fopen(path, "rb")`
succeeds. -/
structure FileSys where
  fsExists : String → Bool
  isRegularFile : String → Bool
  openRead : String → Bool

/-- Embedding of `AbuseIpDbApi::BlackListOptions` (AbuseIpDbApi.hpp lines
181-191). -/
structure BlackListOptions where
  limit : Nat
  minimumConfidence : Nat
  onlyCountries : List String
  exceptCountries : List String
  deriving DecidableEq, Repr

/-- The default-constructed `BlackListOptions`: basic-subscription limit and
minimum confidence 100, both country lists empty. -/
def BlackListOptions.mkDefault : BlackListOptions :=
  ⟨MAX_IPS_BASIC_SUB, 100, [], []⟩

/-- The three query parameters built by `getBlackList` (AbuseIpDbApi.cpp lines
312-321) and, identically, by `getBlackListPlaintext` (lines 420-429):
`confidenceMinimum`, `limit`, and exactly one country parameter — when
`onlyCountries` is non-empty it is chosen, otherwise `exceptCountries`.  The
country codes are joined with `std::accumulate` over `std::string` with the
default `operator+`, i.e. plain concatenation with no separator, then
escaped. -/
def getBlackListParams (options : BlackListOptions) : List String :=
  let confidenceMinimum :=
    "confidenceMinimum=" ++ getEscapedString (toString options.minimumConfidence)
  let limit := "limit=" ++ getEscapedString (toString options.limit)
  let countryList :=
    if options.onlyCountries.length > 0 then
      "onlyCountries=" ++
        getEscapedString (options.onlyCountries.foldl (fun a b => a ++ b) "")
    else
      "exceptCountries=" ++
        getEscapedString (options.exceptCountries.foldl (fun a b => a ++ b) "")
  [confidenceMinimum, limit, countryList]

/-- The common tail of every JSON endpoint (e.g. AbuseIpDbApi.cpp lines
246-257): when the transport reported a non-`CURLE_OK` code, log and return
the default-built `json()`; otherwise try `json::parse(m_curlResponse)`,
returning `json()` when the parse throws. `trace` is the event trace up to and
including the post-perform cleanup. -/
def decodeJsonTail (parse : String → Option Json) (trace : List Ev)
    (req : Request) (t : TransportResult) : Call Json :=
  if t.retCode ≠ 0 then
    ⟨trace, some req, Outcome.ok Json.nullJson⟩
  else
    match parse (accumulateBody t.chunks) with
    | some j => ⟨trace ++ [Ev.parseAttempt], some req, Outcome.ok j⟩
    | none => ⟨trace ++ [Ev.parseAttempt], some req, Outcome.ok Json.nullJson⟩

/-- Embedding of `AbuseIpDbApi::checkIpAddress` (AbuseIpDbApi.cpp lines
229-258): `initialiseCurl` (clears the accumulators), `setHeaders`, build
`ipAddress=` and append `&verbose`, perform, free the header list, reset the
handle, then branch on the transport code and decode. -/
def checkIpAddress (parse : String → Option Json) (apiKey ipAddress : String)
    (t : TransportResult) : Call Json :=
  let headers := setHeadersList apiKey []
  let ipParam := "ipAddress=" ++ getEscapedString ipAddress
  let url := "https://api.abuseipdb.com/api/v2/check" ++ "?" ++ ipParam ++ "&verbose"
  let req : Request := ⟨url, none, none, false, headers⟩
  decodeJsonTail parse
    [Ev.clearAccumulators, Ev.perform, Ev.freeHeaders, Ev.resetHandle] req t

/-- Embedding of `AbuseIpDbApi::checkBlocked` (AbuseIpDbApi.cpp lines
191-220): like `checkIpAddress` but with the single `network=address/cidr`
parameter, escaped as one unit. -/
def checkBlocked (parse : String → Option Json) (apiKey networkAddress : String)
    (subnetSize : Nat) (t : TransportResult) : Call Json :=
  let headers := setHeadersList apiKey []
  let getParam :=
    "network=" ++ getEscapedString (networkAddress ++ "/" ++ toString subnetSize)
  let url := "https://api.abuseipdb.com/api/v2/check-block" ++ "?" ++ getParam
  let req : Request := ⟨url, none, none, false, headers⟩
  decodeJsonTail parse
    [Ev.clearAccumulators, Ev.perform, Ev.freeHeaders, Ev.resetHandle] req t

/-- Embedding of `AbuseIpDbApi::clearIpAddress` (AbuseIpDbApi.cpp lines
267-297): like `checkIpAddress` with `CURLOPT_CUSTOMREQUEST` set to
`DELETE`. -/
def clearIpAddress (parse : String → Option Json) (apiKey ipAddress : String)
    (t : TransportResult) : Call Json :=
  let headers := setHeadersList apiKey []
  let ipParam := "ipAddress=" ++ getEscapedString ipAddress
  let url :=
    "https://api.abuseipdb.com/api/v2/clear-address" ++ "?" ++ ipParam ++ "&verbose"
  let req : Request := ⟨url, some "DELETE", none, false, headers⟩
  decodeJsonTail parse
    [Ev.clearAccumulators, Ev.perform, Ev.freeHeaders, Ev.resetHandle] req t

/-- Embedding of `AbuseIpDbApi::getBlackList` (AbuseIpDbApi.cpp lines
306-344): the URL joins the three parameters of `getBlackListParams` with
`&`. -/
def getBlackList (parse : String → Option Json) (apiKey : String)
    (options : BlackListOptions) (t : TransportResult) : Call Json :=
  let headers := setHeadersList apiKey []
  let url := "https://api.abuseipdb.com/api/v2/blacklist" ++ "?" ++
    String.intercalate "&" (getBlackListParams options)
  let req : Request := ⟨url, none, none, false, headers⟩
  decodeJsonTail parse
    [Ev.clearAccumulators, Ev.perform, Ev.freeHeaders, Ev.resetHandle] req t

/-- The comma join of the decoded category codes built by `reportIp`
(AbuseIpDbApi.cpp lines 372-379): `std::accumulate` seeded with the first
element and folding `a + "," + to_string(b)` over the rest; only invoked on a
non-empty list. -/
def commaJoinCategories (l : List Nat) : String :=
  match l with
  | [] => ""
  | c :: rest => rest.foldl (fun a b => a ++ "," ++ toString b) (toString c)

/-- Embedding of `AbuseIpDbApi::reportIp` (AbuseIpDbApi.cpp lines 355-405):
after `initialiseCurl` and `setHeaders`, throw `std::invalid_argument` when
the category set is zero and `std::runtime_error` when decoding yields no
codes — both before `curl_easy_perform`; otherwise build the POST fields,
perform, free headers, reset, and decode. -/
def reportIp (parse : String → Option Json) (apiKey ipAddress : String)
    (categories : Nat) (comment : String) (t : TransportResult) : Call Json :=
  let headers := setHeadersList apiKey []
  if categories == 0 then
    ⟨[Ev.clearAccumulators], none,
      Outcome.exn "std::invalid_argument" "categories must be a valid category!"⟩
  else
    let categoryList := getReportCategories categories
    if categoryList.length == 0 then
      ⟨[Ev.clearAccumulators], none,
        Outcome.exn "std::runtime_error" "Failed to parse categories!"⟩
    else
      let ip := "ip=" ++ getEscapedString ipAddress
      let categoryParam :=
        "categories=" ++ getEscapedString (commaJoinCategories categoryList)
      let commentParam := "comment=" ++ getEscapedString comment
      let postParams := ip ++ "&" ++ categoryParam ++ "&" ++ commentParam
      let req : Request :=
        ⟨"https://api.abuseipdb.com/api/v2/report", none, some postParams, false,
          headers⟩
      decodeJsonTail parse
        [Ev.clearAccumulators, Ev.perform, Ev.freeHeaders, Ev.resetHandle] req t

/-- Embedding of `AbuseIpDbApi::bulkReport` (AbuseIpDbApi.cpp lines 131-181):
after `initialiseCurl` and `setHeaders`, throw `filesystem_error` when the
path does not exist or is not a regular file, or when `fopen` fails — before
any transport call; otherwise attach the mime form and perform. Unlike every
other endpoint, the source never calls `curl_slist_free_all` nor
`curl_easy_reset` in this function; the trace therefore has no `freeHeaders`
and no `resetHandle` event. -/
def bulkReport (parse : String → Option Json) (apiKey csv : String)
    (fs : FileSys) (t : TransportResult) : Call Json :=
  let headers := setHeadersList apiKey []
  if !(fs.fsExists csv) || !(fs.isRegularFile csv) then
    ⟨[Ev.clearAccumulators], none,
      Outcome.exn "std::filesystem::filesystem_error" "Csv must be a valid file!"⟩
  else if !(fs.openRead csv) then
    ⟨[Ev.clearAccumulators], none,
      Outcome.exn "std::filesystem::filesystem_error" "Failed to open file"⟩
  else
    let req : Request :=
      ⟨"https://api.abuseipdb.com/api/v2/bulk-report", some "POST", none, true,
        headers⟩
    decodeJsonTail parse [Ev.clearAccumulators, Ev.perform] req t

/-- Embedding of `AbuseIpDbApi::getBlackListPlaintext` (AbuseIpDbApi.cpp lines
414-450). The headers additionally carry `Accept: text/plain`; the URL appends
`&plaintext`. On a non-`CURLE_OK` transport code the source executes
`return json();` inside a function whose return type is `std::string`:
nlohmann's implicit conversion operator calls `get<std::string>()` on the null
document, which throws `nlohmann::json::type_error` 302
(`type must be string, but is null`) — so the call raises instead of
returning. On a successful transport, `json::parse(m_curlResponse).dump(2)` is
returned when the body parses (`dump2` abstracts `.dump(2)`), and the raw
captured body is returned verbatim when the parse throws. -/
def getBlackListPlaintext (parse : String → Option Json) (dump2 : Json → String)
    (apiKey : String) (options : BlackListOptions) (t : TransportResult) :
    Call String :=
  let headers := setHeadersList apiKey [("Accept", "text/plain")]
  let url := "https://api.abuseipdb.com/api/v2/blacklist" ++ "?" ++
    String.intercalate "&" (getBlackListParams options) ++ "&plaintext"
  let req : Request := ⟨url, none, none, false, headers⟩
  let trace := [Ev.clearAccumulators, Ev.perform, Ev.freeHeaders, Ev.resetHandle]
  if t.retCode ≠ 0 then
    ⟨trace, some req,
      Outcome.exn "nlohmann::json::type_error"
        "[json.exception.type_error.302] type must be string, but is null"⟩
  else
    match parse (accumulateBody t.chunks) with
    | some j => ⟨trace ++ [Ev.parseAttempt], some req, Outcome.ok (dump2 j)⟩
    | none =>
        ⟨trace ++ [Ev.parseAttempt], some req,
          Outcome.ok (accumulateBody t.chunks)⟩

/-- A constructed `AbuseIpDbApi` instance as the factory sees it: an identity
(fresh per `new AbuseIpDbApi(...)`) and the `m_apiKey` it was constructed
with. Two handles are the same instance exactly when their identities are
equal. -/
structure ApiInstance where
  ident : Nat
  apiKey : String
  deriving DecidableEq, Repr

/-- State of an `AbuseIpDbApi::Factory` (AbuseIpDbApi.hpp lines 109-132): the
factory's immutable `m_apiKey`, the cached `m_instance` (`none` models the
null `shared_ptr`), and a counter supplying fresh instance identities. -/
structure FactoryState where
  apiKey : String
  inst : Option ApiInstance
  nextIdent : Nat
  deriving DecidableEq, Repr

/-- The state of a freshly constructed `Factory(apiKey, logger)`:
`m_instance` is null. -/
def factoryInit (apiKey : String) : FactoryState := ⟨apiKey, none, 0⟩

/-- Embedding of `AbuseIpDbApi::Factory::getInstance(const bool override)`
(AbuseIpDbApi.hpp lines 116-126), statement by statement: when `m_instance` is
null, construct, cache and return the new instance; otherwise, when the cached
instance's key differs from the factory's key and the override flag is set,
replace the cached instance — and then, on every path with a non-null
instance, unconditionally `throw std::runtime_error("API key mismatch!")`.
Returns the factory state after the call and the outcome seen by the
caller. -/
def getInstance (s : FactoryState) (overrideFlag : Bool) :
    FactoryState × Outcome ApiInstance :=
  match s.inst with
  | none =>
      let fresh : ApiInstance := ⟨s.nextIdent, s.apiKey⟩
      (⟨s.apiKey, some fresh, s.nextIdent + 1⟩, Outcome.ok fresh)
  | some cached =>
      let s2 :=
        if cached.apiKey != s.apiKey && overrideFlag then
          (⟨s.apiKey, some ⟨s.nextIdent, s.apiKey⟩, s.nextIdent + 1⟩ : FactoryState)
        else s
      (s2, Outcome.exn "std::runtime_error" "API key mismatch!")

/-- A trace in which the transport call is immediately followed by the release
of the per-call header list and the reset of the curl handle. -/
def performThenCleanup (tr : List Ev) : Prop :=
  ∃ pre post, tr = pre ++ [Ev.perform, Ev.freeHeaders, Ev.resetHandle] ++ post

end AbuseIpDbClient

namespace AbuseIpDbClient

/-- Bit `i` of `v` is set exactly when masking with `2 ^ i` is non-zero. -/
theorem and_two_pow_ne_zero_iff (v i : Nat) :
    (v &&& 2 ^ i ≠ 0) ↔ v.testBit i = true := by
  rw [Nat.and_two_pow]
  cases h : v.testBit i <;> simp [h, Nat.pow_eq_zero]

/-- Masking a bitwise OR with a single-bit mask distributes as a
disjunction. -/
theorem or_and_two_pow (a b i : Nat) :
    ((a ||| b) &&& 2 ^ i ≠ 0) ↔ (a &&& 2 ^ i ≠ 0 ∨ b &&& 2 ^ i ≠ 0) := by
  simp [and_two_pow_ne_zero_iff, Nat.testBit_or]

/-- Membership in the decode walk: `c` appears exactly when some listed bit
`i` is set in `v` and `c` is its wire code `i + 1`. -/
theorem decodeBits_mem (v c : Nat) (l : List Nat) :
    c ∈ decodeBits v l ↔ ∃ i, i ∈ l ∧ v &&& 2 ^ i ≠ 0 ∧ c = i + 1 := by
  induction l with
  | nil => simp [decodeBits]
  | cons i rest ih =>
      by_cases h : v &&& 2 ^ i ≠ 0
      · simp only [decodeBits, if_pos h, List.cons_append, List.nil_append,
          List.mem_cons, ih]
        constructor
        · rintro (rfl | ⟨j, hj, hbit, rfl⟩)
          · exact ⟨i, Or.inl rfl, h, rfl⟩
          · exact ⟨j, Or.inr hj, hbit, rfl⟩
        · rintro ⟨j, rfl | hj2, hbit, rfl⟩
          · exact Or.inl rfl
          · exact Or.inr ⟨j, hj2, hbit, rfl⟩
      · simp only [decodeBits, if_neg h, List.nil_append, ih, List.mem_cons]
        constructor
        · rintro ⟨j, hj, hbit, rfl⟩
          exact ⟨j, Or.inr hj, hbit, rfl⟩
        · rintro ⟨j, rfl | hj2, hbit, rfl⟩
          · exact absurd hbit h
          · exact ⟨j, hj2, hbit, rfl⟩

/-- The decode walk over a strictly ascending bit list is strictly
ascending. -/
theorem decodeBits_pairwise (v : Nat) (l : List Nat)
    (hl : l.Pairwise (· < ·)) : (decodeBits v l).Pairwise (· < ·) := by
  induction l with
  | nil => simp [decodeBits]
  | cons i rest ih =>
      rw [List.pairwise_cons] at hl
      have hrest := ih hl.2
      simp only [decodeBits]
      rw [List.pairwise_append]
      refine ⟨?_, hrest, ?_⟩
      · split <;> simp
      · intro a ha b hb
        obtain ⟨j, hj, hbit, rfl⟩ := (decodeBits_mem v b rest).mp hb
        have ha2 : a = i + 1 := by
          by_cases h : v &&& 2 ^ i ≠ 0
          · rw [if_pos h] at ha; simpa using ha
          · rw [if_neg h] at ha; simp at ha
        subst ha2
        exact Nat.succ_lt_succ (hl.1 j hj)

/-- `List.range 23` is strictly ascending. -/
theorem range23_pairwise : (List.range 23).Pairwise (· < ·) := by decide

/-- The 23-step mask chain of the source equals the decode walk over bit
positions 0..22. -/
theorem getReportCategories_eq (v : Nat) :
    getReportCategories v = decodeBits v (List.range 23) := by
  have h : List.range 23
      = [0, 1, 2, 3, 4, 5, 6, 7, 8, 9, 10, 11, 12, 13, 14, 15, 16, 17, 18, 19,
         20, 21, 22] := by decide
  rw [h]
  norm_num [getReportCategories, decodeBits]

/-- The shared decode tail either appends nothing (transport failure) or
exactly one `parseAttempt` event to the trace it is given. -/
theorem decodeJsonTail_trace (parse : String → Option Json) (tr : List Ev)
    (req : Request) (t : TransportResult) :
    (decodeJsonTail parse tr req t).trace = tr ∨
    (decodeJsonTail parse tr req t).trace = tr ++ [Ev.parseAttempt] := by
  unfold decodeJsonTail
  split
  · exact Or.inl rfl
  · split <;> exact Or.inr rfl

/-- On a non-`CURLE_OK` transport code the decode tail returns the `json()`
sentinel and does not touch the parser. -/
theorem decodeJsonTail_transport_failure (parse : String → Option Json)
    (tr : List Ev) (req : Request) (t : TransportResult) (h : t.retCode ≠ 0) :
    decodeJsonTail parse tr req t = ⟨tr, some req, Outcome.ok Json.nullJson⟩ := by
  unfold decodeJsonTail
  rw [if_pos h]

/-- On a successful transport whose body does not parse, the decode tail
returns the `json()` sentinel after the parse attempt. -/
theorem decodeJsonTail_parse_none (parse : String → Option Json) (tr : List Ev)
    (req : Request) (t : TransportResult) (h0 : t.retCode = 0)
    (hp : parse (accumulateBody t.chunks) = none) :
    decodeJsonTail parse tr req t
      = ⟨tr ++ [Ev.parseAttempt], some req, Outcome.ok Json.nullJson⟩ := by
  simp [decodeJsonTail, h0, hp]

/-- C3: for every CategorySet, `getReportCategories` produces wire codes in
strictly ascending order with no duplicates; a wire code `i + 1` appears for
exactly the set bits `i` in 0..22; and the decode of `combine(a, b)` (bitwise
OR) has exactly the members of `decode a` together with `decode b` while being
strictly ascending itself — a strictly ascending sequence is determined by its
member set, so it is the sorted, duplicate-free union of the two decodes. -/
theorem decode_ascending_and_or_union (a b : Nat) :
    (getReportCategories a).Pairwise (· < ·) ∧
    (getReportCategories a).Nodup ∧
    (∀ i, i < 23 → ((i + 1) ∈ getReportCategories a ↔ a &&& 2 ^ i ≠ 0)) ∧
    (∀ c, c ∈ getReportCategories a →
      ∃ i, i < 23 ∧ a &&& 2 ^ i ≠ 0 ∧ c = i + 1) ∧
    (getReportCategories (combineCategories a b)).Pairwise (· < ·) ∧
    (∀ c, c ∈ getReportCategories (combineCategories a b) ↔
        c ∈ getReportCategories a ∨ c ∈ getReportCategories b) := by
  have hpa : (getReportCategories a).Pairwise (· < ·) := by
    rw [getReportCategories_eq]
    exact decodeBits_pairwise _ _ range23_pairwise
  refine ⟨hpa, hpa.imp (fun h => Nat.ne_of_lt h), ?_, ?_, ?_, ?_⟩
  · intro i hi
    rw [getReportCategories_eq, decodeBits_mem]
    constructor
    · rintro ⟨j, hj, hbit, heq⟩
      have hji : j = i := by omega
      subst hji
      exact hbit
    · intro hbit
      exact ⟨i, List.mem_range.mpr hi, hbit, rfl⟩
  · intro c hc
    rw [getReportCategories_eq, decodeBits_mem] at hc
    obtain ⟨i, hi, hbit, rfl⟩ := hc
    exact ⟨i, List.mem_range.mp hi, hbit, rfl⟩
  · rw [getReportCategories_eq]
    exact decodeBits_pairwise _ _ range23_pairwise
  · intro c
    rw [getReportCategories_eq, getReportCategories_eq, getReportCategories_eq,
      decodeBits_mem, decodeBits_mem, decodeBits_mem]
    unfold combineCategories
    constructor
    · rintro ⟨i, hi, hbit, rfl⟩
      rcases (or_and_two_pow a b i).mp hbit with h | h
      · exact Or.inl ⟨i, hi, h, rfl⟩
      · exact Or.inr ⟨i, hi, h, rfl⟩
    · rintro (⟨i, hi, h, rfl⟩ | ⟨i, hi, h, rfl⟩)
      · exact ⟨i, hi, (or_and_two_pow a b i).mpr (Or.inl h), rfl⟩
      · exact ⟨i, hi, (or_and_two_pow a b i).mpr (Or.inr h), rfl⟩

/-- C3 witness: at the concrete sets 5 = DnsCompromise + FraudOrders and
6 = DnsPoisoning + FraudOrders, bit 0 of 5 gives wire code 1 and wire code 3
belongs to the decode of the combination. -/
theorem decode_ascending_and_or_union_witness :
    (0 + 1) ∈ getReportCategories 5 ∧
    (3 : Nat) ∈ getReportCategories (combineCategories 5 6) :=
  ⟨((decode_ascending_and_or_union 5 6).2.2.1 0 (by decide)).mpr (by decide),
   ((decode_ascending_and_or_union 5 6).2.2.2.2.2 3).mpr (Or.inl (by decide))⟩

/-- C4: decode of the empty CategorySet yields the empty sequence, and
`reportIp` called with a CategorySet that is zero — or whose decoding yields
no wire codes — raises a caller-input exception synchronously: the transport
is never invoked and no request is configured. -/
theorem reportIp_failfast (parse : String → Option Json)
    (apiKey ipAddress comment : String) (categories : Nat)
    (t : TransportResult)
    (h : categories = 0 ∨ getReportCategories categories = []) :
    getReportCategories 0 = [] ∧
    (∃ what msg,
      (reportIp parse apiKey ipAddress categories comment t).result
        = Outcome.exn what msg) ∧
    Ev.perform ∉ (reportIp parse apiKey ipAddress categories comment t).trace ∧
    (reportIp parse apiKey ipAddress categories comment t).request = none := by
  refine ⟨by decide, ?_⟩
  by_cases h0 : categories = 0
  · subst h0
    refine ⟨⟨"std::invalid_argument", "categories must be a valid category!",
      ?_⟩, ?_, ?_⟩ <;> simp [reportIp]
  · have hd : getReportCategories categories = [] := h.resolve_left h0
    refine ⟨⟨"std::runtime_error", "Failed to parse categories!",
      ?_⟩, ?_, ?_⟩ <;> simp [reportIp, h0, hd]

/-- C4 witness: the empty CategorySet makes `reportIp` throw with no
transport call. -/
theorem reportIp_failfast_witness :
    getReportCategories 0 = [] ∧
    (∃ what msg,
      (reportIp (fun _ => none) "key" "127.0.0.1" 0 "spam" ⟨0, []⟩).result
        = Outcome.exn what msg) ∧
    Ev.perform ∉ (reportIp (fun _ => none) "key" "127.0.0.1" 0 "spam"
      ⟨0, []⟩).trace ∧
    (reportIp (fun _ => none) "key" "127.0.0.1" 0 "spam" ⟨0, []⟩).request
      = none :=
  reportIp_failfast (fun _ => none) "key" "127.0.0.1" "spam" 0 ⟨0, []⟩
    (Or.inl rfl)

/-- C5: `bulkReport` raises a `filesystem_error` — and never reaches the
transport, configuring no request — whenever the path does not exist, is not
a regular file, or cannot be opened for reading. -/
theorem bulkReport_failfast (parse : String → Option Json)
    (apiKey csv : String) (fs : FileSys) (t : TransportResult)
    (h : fs.fsExists csv = false ∨ fs.isRegularFile csv = false ∨
      fs.openRead csv = false) :
    (∃ msg, (bulkReport parse apiKey csv fs t).result
        = Outcome.exn "std::filesystem::filesystem_error" msg) ∧
    Ev.perform ∉ (bulkReport parse apiKey csv fs t).trace ∧
    (bulkReport parse apiKey csv fs t).request = none := by
  rcases h with h1 | h1 | h1
  · refine ⟨⟨"Csv must be a valid file!", ?_⟩, ?_, ?_⟩ <;>
      simp [bulkReport, h1]
  · refine ⟨⟨"Csv must be a valid file!", ?_⟩, ?_, ?_⟩ <;>
      simp [bulkReport, h1]
  · cases hA : fs.fsExists csv
    · refine ⟨⟨"Csv must be a valid file!", ?_⟩, ?_, ?_⟩ <;>
        simp [bulkReport, hA]
    · cases hB : fs.isRegularFile csv
      · refine ⟨⟨"Csv must be a valid file!", ?_⟩, ?_, ?_⟩ <;>
          simp [bulkReport, hB]
      · refine ⟨⟨"Failed to open file", ?_⟩, ?_, ?_⟩ <;>
          simp [bulkReport, hA, hB, h1]

/-- C5 witness: a path the filesystem reports as missing makes `bulkReport`
throw with no transport call. -/
theorem bulkReport_failfast_witness :
    (∃ msg, (bulkReport (fun _ => none) "key" "/no/such.csv"
        ⟨fun _ => false, fun _ => false, fun _ => false⟩ ⟨0, []⟩).result
      = Outcome.exn "std::filesystem::filesystem_error" msg) ∧
    Ev.perform ∉ (bulkReport (fun _ => none) "key" "/no/such.csv"
        ⟨fun _ => false, fun _ => false, fun _ => false⟩ ⟨0, []⟩).trace ∧
    (bulkReport (fun _ => none) "key" "/no/such.csv"
        ⟨fun _ => false, fun _ => false, fun _ => false⟩ ⟨0, []⟩).request
      = none :=
  bulkReport_failfast (fun _ => none) "key" "/no/such.csv"
    ⟨fun _ => false, fun _ => false, fun _ => false⟩ ⟨0, []⟩ (Or.inl rfl)

/-- C9: the write-accumulator drops every chunk that is empty or consists
only of whitespace and appends every other chunk; in particular feeding the
chunks `"  "`, `"data"`, `""` in sequence accumulates exactly `"data"`. -/
theorem writeAccumulator_filters (data output : String)
    (dataLength memBufSize : Nat) :
    accumulateBody ["  ", "data", ""] = "data" ∧
    ((String.mk (data.data.take (dataLength * memBufSize))).data.all isspaceC
        = true →
      (handleCurlWrite data dataLength memBufSize output).1 = output) ∧
    ((String.mk (data.data.take (dataLength * memBufSize))).data.all isspaceC
        = false →
      (handleCurlWrite data dataLength memBufSize output).1
        = output ++ String.mk (data.data.take (dataLength * memBufSize))) := by
  refine ⟨by decide, ?_, ?_⟩
  · intro h
    simp [handleCurlWrite, h]
  · intro h
    have hne : (data.data.take (dataLength * memBufSize)).isEmpty = false := by
      cases hl : data.data.take (dataLength * memBufSize) with
      | nil => rw [hl] at h; simp at h
      | cons c rest => rfl
    simp [handleCurlWrite, h, hne]

/-- C9 witness: an all-whitespace chunk is dropped, a data chunk is appended,
and the three-chunk sequence of the claim accumulates `"data"`. -/
theorem writeAccumulator_filters_witness :
    (handleCurlWrite "  " 1 2 "").1 = "" ∧
    (handleCurlWrite "data" 1 4 "").1
      = "" ++ String.mk ("data".data.take (1 * 4)) ∧
    accumulateBody ["  ", "data", ""] = "data" :=
  ⟨(writeAccumulator_filters "  " "" 1 2).2.1 (by decide),
   (writeAccumulator_filters "data" "" 1 4).2.2 (by decide),
   (writeAccumulator_filters "x" "" 0 0).1⟩

/-- C10: the write callback always reports `dataLength * memBufSize` bytes as
written, also for chunks it drops. -/
theorem writeAccumulator_returns_size (data output : String)
    (dataLength memBufSize : Nat) :
    (handleCurlWrite data dataLength memBufSize output).2
      = dataLength * memBufSize := by
  simp only [handleCurlWrite]
  split <;> rfl

/-- The trace of the shared decode tail, seeded with the standard
clear-perform-free-reset sequence, always starts with the accumulator clear
and always has the cleanup pair directly after the transport call. -/
theorem decodeJsonTail_head_cleanup (parse : String → Option Json)
    (req : Request) (t : TransportResult) :
    (decodeJsonTail parse [Ev.clearAccumulators, Ev.perform, Ev.freeHeaders,
        Ev.resetHandle] req t).trace.head? = some Ev.clearAccumulators ∧
    performThenCleanup (decodeJsonTail parse [Ev.clearAccumulators, Ev.perform,
        Ev.freeHeaders, Ev.resetHandle] req t).trace := by
  rcases decodeJsonTail_trace parse
      [Ev.clearAccumulators, Ev.perform, Ev.freeHeaders, Ev.resetHandle] req t
    with h | h <;> rw [h]
  · exact ⟨rfl, [Ev.clearAccumulators], [], rfl⟩
  · exact ⟨rfl, [Ev.clearAccumulators], [Ev.parseAttempt], rfl⟩

/-- The trace of `getBlackListPlaintext` is the standard
clear-perform-free-reset sequence, with a parse attempt appended on a
successful transport. -/
theorem getBlackListPlaintext_trace (parse : String → Option Json)
    (dump2 : Json → String) (apiKey : String) (options : BlackListOptions)
    (t : TransportResult) :
    (getBlackListPlaintext parse dump2 apiKey options t).trace
      = [Ev.clearAccumulators, Ev.perform, Ev.freeHeaders, Ev.resetHandle] ∨
    (getBlackListPlaintext parse dump2 apiKey options t).trace
      = [Ev.clearAccumulators, Ev.perform, Ev.freeHeaders, Ev.resetHandle]
        ++ [Ev.parseAttempt] := by
  simp only [getBlackListPlaintext]
  split
  · exact Or.inl rfl
  · split <;> exact Or.inr rfl

/-- The trace of `reportIp`: either the call threw before the transport (only
the accumulator clear happened) or the standard sequence ran, with a parse
attempt appended on a successful transport. -/
theorem reportIp_trace (parse : String → Option Json)
    (apiKey ipAddress comment : String) (categories : Nat)
    (t : TransportResult) :
    (reportIp parse apiKey ipAddress categories comment t).trace
      = [Ev.clearAccumulators] ∨
    (reportIp parse apiKey ipAddress categories comment t).trace
      = [Ev.clearAccumulators, Ev.perform, Ev.freeHeaders, Ev.resetHandle] ∨
    (reportIp parse apiKey ipAddress categories comment t).trace
      = [Ev.clearAccumulators, Ev.perform, Ev.freeHeaders, Ev.resetHandle]
        ++ [Ev.parseAttempt] := by
  simp only [reportIp]
  split
  · exact Or.inl rfl
  · split
    · exact Or.inl rfl
    · rcases decodeJsonTail_trace parse
          [Ev.clearAccumulators, Ev.perform, Ev.freeHeaders, Ev.resetHandle] _ t
        with h | h
      · exact Or.inr (Or.inl h)
      · exact Or.inr (Or.inr h)

/-- The trace of `bulkReport`: either the call threw before the transport, or
the transport ran with no cleanup events, with a parse attempt appended on a
successful transport. -/
theorem bulkReport_trace (parse : String → Option Json) (apiKey csv : String)
    (fs : FileSys) (t : TransportResult) :
    (bulkReport parse apiKey csv fs t).trace = [Ev.clearAccumulators] ∨
    (bulkReport parse apiKey csv fs t).trace
      = [Ev.clearAccumulators, Ev.perform] ∨
    (bulkReport parse apiKey csv fs t).trace
      = [Ev.clearAccumulators, Ev.perform] ++ [Ev.parseAttempt] := by
  simp only [bulkReport]
  split
  · exact Or.inl rfl
  · split
    · exact Or.inl rfl
    · rcases decodeJsonTail_trace parse [Ev.clearAccumulators, Ev.perform] _ t
        with h | h
      · exact Or.inr (Or.inl h)
      · exact Or.inr (Or.inr h)

/-- C7 counterexample: a `bulkReport` call with an existing, regular,
readable file and a successful transport performs the request but never
releases the header list and never resets the handle — refuting the claim
that every endpoint call does both. -/
theorem bulkReport_no_cleanup :
    Ev.perform ∈ (bulkReport (fun _ => some (Json.doc "d")) "key" "list.csv"
      ⟨fun _ => true, fun _ => true, fun _ => true⟩ ⟨0, ["body"]⟩).trace ∧
    Ev.freeHeaders ∉ (bulkReport (fun _ => some (Json.doc "d")) "key"
      "list.csv" ⟨fun _ => true, fun _ => true, fun _ => true⟩
      ⟨0, ["body"]⟩).trace ∧
    Ev.resetHandle ∉ (bulkReport (fun _ => some (Json.doc "d")) "key"
      "list.csv" ⟨fun _ => true, fun _ => true, fun _ => true⟩
      ⟨0, ["body"]⟩).trace := by
  decide

/-- C7 amended: every endpoint call clears the response accumulators at its
start; every endpoint other than `bulkReport` that reaches the transport
releases its per-call headers and resets the handle immediately after the
transport call, whatever the outcome; `bulkReport` never emits either cleanup
event. -/
theorem endpointCleanup (parse : String → Option Json) (dump2 : Json → String)
    (apiKey ipAddress networkAddress comment csv : String)
    (subnetSize categories : Nat) (options : BlackListOptions) (fs : FileSys)
    (t : TransportResult) :
    ((checkIpAddress parse apiKey ipAddress t).trace.head?
        = some Ev.clearAccumulators ∧
      performThenCleanup (checkIpAddress parse apiKey ipAddress t).trace) ∧
    ((checkBlocked parse apiKey networkAddress subnetSize t).trace.head?
        = some Ev.clearAccumulators ∧
      performThenCleanup
        (checkBlocked parse apiKey networkAddress subnetSize t).trace) ∧
    ((clearIpAddress parse apiKey ipAddress t).trace.head?
        = some Ev.clearAccumulators ∧
      performThenCleanup (clearIpAddress parse apiKey ipAddress t).trace) ∧
    ((getBlackList parse apiKey options t).trace.head?
        = some Ev.clearAccumulators ∧
      performThenCleanup (getBlackList parse apiKey options t).trace) ∧
    ((getBlackListPlaintext parse dump2 apiKey options t).trace.head?
        = some Ev.clearAccumulators ∧
      performThenCleanup
        (getBlackListPlaintext parse dump2 apiKey options t).trace) ∧
    ((reportIp parse apiKey ipAddress categories comment t).trace.head?
        = some Ev.clearAccumulators ∧
      (Ev.perform ∈ (reportIp parse apiKey ipAddress categories comment
          t).trace →
        performThenCleanup
          (reportIp parse apiKey ipAddress categories comment t).trace)) ∧
    ((bulkReport parse apiKey csv fs t).trace.head?
        = some Ev.clearAccumulators ∧
      Ev.freeHeaders ∉ (bulkReport parse apiKey csv fs t).trace ∧
      Ev.resetHandle ∉ (bulkReport parse apiKey csv fs t).trace) := by
  refine ⟨?_, ?_, ?_, ?_, ?_, ?_, ?_⟩
  · exact decodeJsonTail_head_cleanup parse _ t
  · exact decodeJsonTail_head_cleanup parse _ t
  · exact decodeJsonTail_head_cleanup parse _ t
  · exact decodeJsonTail_head_cleanup parse _ t
  · rcases getBlackListPlaintext_trace parse dump2 apiKey options t
      with h | h <;> rw [h]
    · exact ⟨rfl, [Ev.clearAccumulators], [], rfl⟩
    · exact ⟨rfl, [Ev.clearAccumulators], [Ev.parseAttempt], rfl⟩
  · rcases reportIp_trace parse apiKey ipAddress comment categories t
      with h | h | h <;> rw [h]
    · exact ⟨rfl, fun hp => absurd hp (by decide)⟩
    · exact ⟨rfl, fun _ => ⟨[Ev.clearAccumulators], [], rfl⟩⟩
    · exact ⟨rfl, fun _ => ⟨[Ev.clearAccumulators], [Ev.parseAttempt], rfl⟩⟩
  · rcases bulkReport_trace parse apiKey csv fs t with h | h | h <;> rw [h] <;>
      exact ⟨rfl, by decide, by decide⟩

/-- C7 witness: at a concrete reporting call that reaches the transport the
cleanup follows the transport call, and a concrete `bulkReport` call emits no
header release. -/
theorem endpointCleanup_witness :
    performThenCleanup
      (reportIp (fun _ => none) "key" "1.2.3.4" 1 "" ⟨0, []⟩).trace ∧
    Ev.freeHeaders ∉ (bulkReport (fun _ => none) "key" "x.csv"
      ⟨fun _ => true, fun _ => true, fun _ => true⟩ ⟨0, []⟩).trace :=
  ⟨(endpointCleanup (fun _ => none) (fun _ => "") "key" "1.2.3.4" "10.0.0.0"
      "" "x.csv" 24 1 BlackListOptions.mkDefault
      ⟨fun _ => true, fun _ => true, fun _ => true⟩ ⟨0, []⟩).2.2.2.2.2.1.2
      (by decide),
   (endpointCleanup (fun _ => none) (fun _ => "") "key" "1.2.3.4" "10.0.0.0"
      "" "x.csv" 24 1 BlackListOptions.mkDefault
      ⟨fun _ => true, fun _ => true, fun _ => true⟩ ⟨0, []⟩).2.2.2.2.2.2.2.1⟩

/-- C8: when the transport succeeds but the captured body does not parse as
JSON, `getBlackListPlaintext` returns the captured body verbatim, and every
JSON-returning endpoint that reaches decoding returns the `json()` sentinel
instead of raising. -/
theorem parseFailure_fallbacks (parse : String → Option Json)
    (dump2 : Json → String)
    (apiKey ipAddress networkAddress comment csv : String)
    (subnetSize categories : Nat) (options : BlackListOptions) (fs : FileSys)
    (t : TransportResult) (h0 : t.retCode = 0)
    (hp : parse (accumulateBody t.chunks) = none) :
    (getBlackListPlaintext parse dump2 apiKey options t).result
        = Outcome.ok (accumulateBody t.chunks) ∧
    (checkIpAddress parse apiKey ipAddress t).result
        = Outcome.ok Json.nullJson ∧
    (checkBlocked parse apiKey networkAddress subnetSize t).result
        = Outcome.ok Json.nullJson ∧
    (clearIpAddress parse apiKey ipAddress t).result
        = Outcome.ok Json.nullJson ∧
    (getBlackList parse apiKey options t).result = Outcome.ok Json.nullJson ∧
    (categories ≠ 0 → getReportCategories categories ≠ [] →
      (reportIp parse apiKey ipAddress categories comment t).result
        = Outcome.ok Json.nullJson) ∧
    (fs.fsExists csv = true → fs.isRegularFile csv = true →
      fs.openRead csv = true →
      (bulkReport parse apiKey csv fs t).result = Outcome.ok Json.nullJson) := by
  have tail : ∀ (tr : List Ev) (req : Request),
      (decodeJsonTail parse tr req t).result = Outcome.ok Json.nullJson := by
    intro tr req
    rw [decodeJsonTail_parse_none parse tr req t h0 hp]
  refine ⟨?_, tail _ _, tail _ _, tail _ _, tail _ _, ?_, ?_⟩
  · simp [getBlackListPlaintext, h0, hp]
  · intro hc hl
    have h1 : (categories == 0) = false := by simp [hc]
    have h2 : ((getReportCategories categories).length == 0) = false := by
      simp [List.length_eq_zero, hl]
    simp only [reportIp, h1, h2, Bool.false_eq_true, if_false]
    exact tail _ _
  · intro hE hR hO
    simp only [bulkReport, hE, hR, hO, Bool.not_true, Bool.or_self,
      Bool.false_eq_true, if_false]
    exact tail _ _

/-- C8 witness: a successful transport delivering the unparseable body
`"not json"` makes the plaintext endpoint return that body verbatim and the
JSON endpoints return the sentinel. -/
theorem parseFailure_fallbacks_witness :
    (getBlackListPlaintext (fun _ => none) (fun _ => "") "key"
        BlackListOptions.mkDefault ⟨0, ["not json"]⟩).result
      = Outcome.ok (accumulateBody ["not json"]) ∧
    (checkIpAddress (fun _ => none) "key" "1.2.3.4" ⟨0, ["not json"]⟩).result
      = Outcome.ok Json.nullJson ∧
    (reportIp (fun _ => none) "key" "1.2.3.4" 1 "" ⟨0, ["not json"]⟩).result
      = Outcome.ok Json.nullJson ∧
    (bulkReport (fun _ => none) "key" "x.csv"
        ⟨fun _ => true, fun _ => true, fun _ => true⟩
        ⟨0, ["not json"]⟩).result = Outcome.ok Json.nullJson :=
  let h := parseFailure_fallbacks (fun _ => none) (fun _ => "") "key"
    "1.2.3.4" "10.0.0.0" "" "x.csv" 24 1 BlackListOptions.mkDefault
    ⟨fun _ => true, fun _ => true, fun _ => true⟩ ⟨0, ["not json"]⟩ rfl rfl
  ⟨h.1, h.2.1, h.2.2.2.2.2.1 (by decide) (by decide),
   h.2.2.2.2.2.2 rfl rfl rfl⟩

/-- C6 (evaluation of the defect): when the transport reports a non-success
code (here CURLE_COULDNT_CONNECT = 7), the JSON endpoints return the `json()`
sentinel without attempting a parse — but `getBlackListPlaintext` raises: its
`return json();` sits in a `std::string`-returning function, so nlohmann's
implicit conversion of the null document to `std::string` throws
`type_error` 302 to the caller, contradicting the claim that no endpoint
raises on transport failure. -/
theorem transportFailure_plaintext_raises :
    (getBlackListPlaintext (fun _ => none) (fun _ => "") "key"
        BlackListOptions.mkDefault ⟨7, []⟩).result
      = Outcome.exn "nlohmann::json::type_error"
          "[json.exception.type_error.302] type must be string, but is null" ∧
    Ev.parseAttempt ∉ (getBlackListPlaintext (fun _ => none) (fun _ => "")
        "key" BlackListOptions.mkDefault ⟨7, []⟩).trace ∧
    (checkIpAddress (fun _ => none) "key" "1.2.3.4" ⟨7, []⟩).result
      = Outcome.ok Json.nullJson ∧
    Ev.parseAttempt ∉
      (checkIpAddress (fun _ => none) "key" "1.2.3.4" ⟨7, []⟩).trace := by
  decide

/-- C2 counterexample: for the options with `onlyCountries = ["US", "CA"]`
and `exceptCountries = ["DE"]`, the built parameter set is exactly
`confidenceMinimum=100`, `limit=100000`, `onlyCountries=USCA` — the country
codes are concatenated with no separator, so the parameter
`onlyCountries=US,CA` the claim asserts is not present. -/
theorem blacklist_params_not_comma_joined :
    getBlackListParams ⟨MAX_IPS_BASIC_SUB, 100, ["US", "CA"], ["DE"]⟩
      = ["confidenceMinimum=100", "limit=100000", "onlyCountries=USCA"] ∧
    "onlyCountries=US,CA" ∉
      getBlackListParams ⟨MAX_IPS_BASIC_SUB, 100, ["US", "CA"], ["DE"]⟩ := by
  decide

/-- C2 amended: the built parameter set includes `onlyCountries=USCA` (the
country codes joined by plain concatenation, with no separator) and contains
no `exceptCountries` parameter at all: no parameter's first 15 characters
spell `exceptCountries`. -/
theorem blacklist_params_concatenated :
    "onlyCountries=USCA" ∈
      getBlackListParams ⟨MAX_IPS_BASIC_SUB, 100, ["US", "CA"], ["DE"]⟩ ∧
    ∀ p ∈ getBlackListParams ⟨MAX_IPS_BASIC_SUB, 100, ["US", "CA"], ["DE"]⟩,
      p.data.take 15 ≠ "exceptCountries".data := by
  decide

/-- C2 witness: the concatenated parameter is present, and the first built
parameter is not an `exceptCountries` parameter. -/
theorem blacklist_params_concatenated_witness :
    "onlyCountries=USCA" ∈
      getBlackListParams ⟨MAX_IPS_BASIC_SUB, 100, ["US", "CA"], ["DE"]⟩ ∧
    ("confidenceMinimum=100").data.take 15 ≠ "exceptCountries".data :=
  ⟨blacklist_params_concatenated.1,
   blacklist_params_concatenated.2 "confidenceMinimum=100" (by decide)⟩

/-- C1 (evaluation of the defect): for a factory constructed with key
`abc123`, the first `getInstance` call constructs and caches the instance;
the cached instance's key equals the factory's key, yet the second call with
`override = false` raises `API key mismatch!` instead of returning the cached
instance — `getInstance` throws unconditionally whenever an instance exists.
The final conjunct shows the part of the claim the code does satisfy: a state
whose cached key genuinely differs from the factory key also raises when the
override flag is false. -/
theorem factory_second_call_raises :
    (getInstance (factoryInit "abc123") false).2 = Outcome.ok ⟨0, "abc123"⟩ ∧
    (getInstance (factoryInit "abc123") false).1.inst
      = some ⟨0, "abc123"⟩ ∧
    ((getInstance (factoryInit "abc123") false).1.inst.map ApiInstance.apiKey
      = some (getInstance (factoryInit "abc123") false).1.apiKey) ∧
    (getInstance (getInstance (factoryInit "abc123") false).1 false).2
      = Outcome.exn "std::runtime_error" "API key mismatch!" ∧
    (getInstance ⟨"newKey", some ⟨0, "abc123"⟩, 1⟩ false).2
      = Outcome.exn "std::runtime_error" "API key mismatch!" := by
  decide

end AbuseIpDbClient
